import Mathlib

/-
  Verification development for the pulse-burst detector and statistics
  aggregator of src/src/pulse_tasks.cpp (header src/include/pulse_tasks.h).

  Modelling conventions:
  - C unsigned 32-bit values (micros/millis timestamps, durations) are Nat
    values below U32 = 2^32; the wraparound subtraction a - b on uint32_t is
    modelled by sub32.
  - The uint16_t edgeCount wraps modulo U16 = 2^16.
  - float arithmetic (frequencyKHz) is idealised as exact rational
    arithmetic over Rat; no theorem below depends on rounding of floats.
  - The FreeRTOS queue of length 1 (xQueueCreate(1, ...), xQueueOverwrite,
    xQueuePeek) is a single overwrite slot: Option (Option PulseBurstResult),
    where none means the queue handle is NULL (not created or deleted) and
    some slot is a live queue whose slot is none while nothing has been
    published yet.  xQueuePeek with a timeout on an empty queue is modelled
    as returning empty (no concurrent publisher runs during the call).
  - External outcomes (xQueueCreate success, digitalPinToInterrupt validity,
    xTaskCreate success) are Boolean parameters of the corresponding
    functions.
-/

namespace PulseTasks

/-- PULSE_BURST_TIMEOUT_US from pulse_tasks.h (2 ms burst gap timeout). -/
def PULSE_BURST_TIMEOUT_US : Nat := 2000

/-- MAX_PULSE_COUNT, local constant of pulseBurstTask (line 98). -/
def MAX_PULSE_COUNT : Nat := 40

/-- FIRST_READING_MIN_DURATION_MS, local constant of pulseBurstTask (line 95). -/
def FIRST_READING_MIN_DURATION_MS : Nat := 3000

/-- avgWindow, size of the rolling-average window (line 78). -/
def avgWindow : Nat := 10

/-- Modulus of uint32_t values. -/
def U32 : Nat := 4294967296

/-- Modulus of uint16_t values. -/
def U16 : Nat := 65536

/-- Wraparound subtraction of uint32_t values (for a b < U32). -/
def sub32 (a b : Nat) : Nat := (a + U32 - b) % U32

/-- The volatile pulse-burst tracking variables shared between the ISR and
the monitoring task (pulse_tasks.cpp lines 19-25). -/
structure BurstState where
  lastEdgeTimeUs : Nat
  firstPulseTimeUs : Nat
  burstStartTimeUs : Nat
  lastBurstEndTimeUs : Nat
  edgeCount : Nat
  burstActive : Bool
  notifyTask : Bool
deriving Repr, DecidableEq

/-- The tracking-variable values established by initPulseBurstModule
(lines 358-365): everything zero, flags false. -/
def initBurstState : BurstState :=
  { lastEdgeTimeUs := 0
    firstPulseTimeUs := 0
    burstStartTimeUs := 0
    lastBurstEndTimeUs := 0
    edgeCount := 0
    burstActive := false
    notifyTask := false }

/-- The guard of the first branch of pulseBurstISR (line 34):
the edge opens a new burst when no burst is active and the gap from the
previous edge exceeds the timeout, in unsigned 32-bit arithmetic. -/
def startsBurst (s : BurstState) (currentTimeUs : Nat) : Bool :=
  !s.burstActive && decide (PULSE_BURST_TIMEOUT_US < sub32 currentTimeUs s.lastEdgeTimeUs)

/-- pulseBurstISR (lines 28-55), as a function of the shared state and of
currentTimeUs = micros().  Every path ends with lastEdgeTimeUs :=
currentTimeUs (line 52).  edgeCount is a uint16_t, hence the mod U16 on the
increment (line 43); the firstPulseTimeUs measurement happens when the
incremented count equals 3 and no measurement was taken yet (lines 46-48). -/
def pulseBurstISR (s : BurstState) (currentTimeUs : Nat) : BurstState :=
  if startsBurst s currentTimeUs = true then
    { s with lastEdgeTimeUs := currentTimeUs
             burstStartTimeUs := currentTimeUs
             edgeCount := 1
             burstActive := true
             firstPulseTimeUs := 0
             notifyTask := true }
  else if s.burstActive = true then
    if (s.edgeCount + 1) % U16 = 3 ∧ s.firstPulseTimeUs = 0 then
      { s with lastEdgeTimeUs := currentTimeUs
               edgeCount := (s.edgeCount + 1) % U16
               firstPulseTimeUs := sub32 currentTimeUs s.lastEdgeTimeUs }
    else
      { s with lastEdgeTimeUs := currentTimeUs
               edgeCount := (s.edgeCount + 1) % U16 }
  else
    { s with lastEdgeTimeUs := currentTimeUs }

/-- Deliver a sequence of edge timestamps to the ISR, one by one. -/
def feedEdges (s : BurstState) (l : List Nat) : BurstState :=
  l.foldl pulseBurstISR s

/-- Number of edges of the sequence that take the start-a-new-burst branch
of the ISR. -/
def burstStarts : BurstState → List Nat → Nat
  | _, [] => 0
  | s, t :: ts => (if startsBurst s t = true then 1 else 0) + burstStarts (pulseBurstISR s t) ts

/-- Strictly increasing timestamps whose consecutive gaps are all strictly
below PULSE_BURST_TIMEOUT_US (the hypothesis of the single-burst property). -/
def gapsOk : List Nat → Bool
  | [] => true
  | [_] => true
  | a :: b :: rest =>
      decide (a < b) && decide (b - a < PULSE_BURST_TIMEOUT_US) && gapsOk (b :: rest)

/-- PulseBurstResult_t from pulse_tasks.h (lines 18-27).  frequencyKHz is a
float in the C struct, idealised here as an exact rational. -/
structure PulseBurstResult where
  burstDurationUs : Nat
  offPeriodUs : Nat
  pulseCount : Nat
  frequencyKHz : Rat
  firstPulsePeriodUs : Nat
  timestamp : Nat
  burstActive : Bool
  success : Bool
deriving Repr, DecidableEq

/-- The result value as initialised at the start of pulseBurstTask
(lines 62-70). -/
def initResult : PulseBurstResult :=
  { burstDurationUs := 0
    offPeriodUs := 0
    pulseCount := 0
    frequencyKHz := 0
    firstPulsePeriodUs := 0
    timestamp := 0
    burstActive := false
    success := false }

/-- The rolling-average window and first-valid-reading (baseline) locals of
pulseBurstTask (lines 77-98).  The five arrays have avgWindow = 10 slots. -/
structure WindowState where
  burstCounts : List Nat
  frequencies : List Rat
  firstPulsePeriods : List Nat
  burstDurations : List Nat
  offPeriods : List Nat
  avgIndex : Nat
  validBursts : Nat
  haveFirstReading : Bool
  firstPulseCount : Nat
  firstFrequency : Rat
  firstPulsePeriod : Nat
  firstBurstDuration : Nat
  firstOffPeriod : Nat
  firstReadingTimestamp : Nat
deriving Repr, DecidableEq

/-- Window and baseline locals as initialised at task start
(lines 79-94): arrays zeroed, indices zero, no first reading. -/
def initWindowState : WindowState :=
  { burstCounts := List.replicate avgWindow 0
    frequencies := List.replicate avgWindow 0
    firstPulsePeriods := List.replicate avgWindow 0
    burstDurations := List.replicate avgWindow 0
    offPeriods := List.replicate avgWindow 0
    avgIndex := 0
    validBursts := 0
    haveFirstReading := false
    firstPulseCount := 0
    firstFrequency := 0
    firstPulsePeriod := 0
    firstBurstDuration := 0
    firstOffPeriod := 0
    firstReadingTimestamp := 0 }

/-- Finalisation of a burst record (pulseBurstTask lines 139-166), from the
snapshot of the shared variables, the time currentTimeUs = micros() at which
the timeout was observed, previousBurstEnd, and nowMs = millis().
The duration guard (line 141) and the off-period guard (line 147) are the
plain C comparisons of uint32_t values; the frequency (line 155) first takes
the integer division localEdgeCount / 2 and then computes in float,
idealised as Rat. -/
def computeBurstResult (currentTimeUs localBurstStartTime localEdgeCount
    localFirstPulseTime previousBurstEnd nowMs : Nat) : PulseBurstResult :=
  let burstDuration : Nat :=
    if localBurstStartTime < currentTimeUs then currentTimeUs - localBurstStartTime else 0
  let offPeriod : Nat :=
    if 0 < previousBurstEnd ∧ previousBurstEnd < localBurstStartTime then
      localBurstStartTime - previousBurstEnd
    else 0
  let freqKHz : Rat :=
    if 4 ≤ localEdgeCount ∧ 0 < burstDuration then
      (((localEdgeCount / 2 : Nat) : Rat) * 1000) / ((burstDuration : Rat) / 1000)
    else 0
  { burstDurationUs := burstDuration
    offPeriodUs := offPeriod
    pulseCount := localEdgeCount / 2
    frequencyKHz := freqKHz
    firstPulsePeriodUs := localFirstPulseTime
    timestamp := nowMs
    burstActive := false
    success := true }

/-- Outlier rejection, window update and baseline capture for a finalised
burst record (pulseBurstTask lines 168-222), with nowMs = millis().
The anomalous branch (lines 171-191) memsets the five arrays, zeroes
validBursts and avgIndex, and clears the baseline only when it has been held
strictly longer than FIRST_READING_MIN_DURATION_MS (line 186, uint32_t
subtraction).  The valid branch (lines 192-222) writes the metrics at
avgIndex, captures the baseline if none is held, then advances avgIndex
modulo avgWindow and increments validBursts, saturating at avgWindow. -/
def processRecord (w : WindowState) (result : PulseBurstResult) (nowMs : Nat) : WindowState :=
  if MAX_PULSE_COUNT < result.pulseCount then
    { burstCounts := List.replicate avgWindow 0
      frequencies := List.replicate avgWindow 0
      firstPulsePeriods := List.replicate avgWindow 0
      burstDurations := List.replicate avgWindow 0
      offPeriods := List.replicate avgWindow 0
      avgIndex := 0
      validBursts := 0
      haveFirstReading :=
        if w.haveFirstReading = true ∧
            FIRST_READING_MIN_DURATION_MS < sub32 nowMs w.firstReadingTimestamp then
          false
        else w.haveFirstReading
      firstPulseCount := w.firstPulseCount
      firstFrequency := w.firstFrequency
      firstPulsePeriod := w.firstPulsePeriod
      firstBurstDuration := w.firstBurstDuration
      firstOffPeriod := w.firstOffPeriod
      firstReadingTimestamp := w.firstReadingTimestamp }
  else
    let w1 := { w with
      burstCounts := w.burstCounts.set w.avgIndex result.pulseCount
      frequencies := w.frequencies.set w.avgIndex result.frequencyKHz
      firstPulsePeriods := w.firstPulsePeriods.set w.avgIndex result.firstPulsePeriodUs
      burstDurations := w.burstDurations.set w.avgIndex result.burstDurationUs
      offPeriods := w.offPeriods.set w.avgIndex result.offPeriodUs }
    let w2 :=
      if w1.haveFirstReading = false then
        { w1 with
          firstPulseCount := result.pulseCount
          firstFrequency := result.frequencyKHz
          firstPulsePeriod := result.firstPulsePeriodUs
          firstBurstDuration := result.burstDurationUs
          firstOffPeriod := result.offPeriodUs
          firstReadingTimestamp := nowMs
          haveFirstReading := true }
      else w1
    { w2 with
      avgIndex := (w2.avgIndex + 1) % avgWindow
      validBursts := if w2.validBursts < avgWindow then w2.validBursts + 1 else w2.validBursts }

/-- The task-local state threaded through iterations of the monitoring loop
(pulseBurstTask lines 62-98): the persistent result value, previousBurstEnd,
wasActive, and the window/baseline state.  The report-timer locals
(lastReportTime, lines 100-102) and lastCheckTimeUs (line 74) are omitted:
the periodic report block (lines 247-323) only prints averages over its own
locals and rewrites lastReportTime, and lastCheckTimeUs is written but never
read; neither mutates any state read elsewhere. -/
structure TaskLocalState where
  result : PulseBurstResult
  previousBurstEnd : Nat
  wasActive : Bool
  window : WindowState
deriving Repr, DecidableEq

/-- Task-local state at the start of pulseBurstTask. -/
def initTaskLocalState : TaskLocalState :=
  { result := initResult
    previousBurstEnd := 0
    wasActive := false
    window := initWindowState }

/-- One iteration of the monitoring loop of pulseBurstTask (lines 104-327),
given the shared state, the task-local state, currentTimeUs = micros()
(line 108) and nowMs = millis() (the code samples millis() at lines 166, 185
and 207 within the same iteration; the embedding passes the one sampled
value).  Returns the new shared state, the new task-local state, and the
value written to the results queue by xQueueOverwrite, if any.
The snapshot clears notifyTask (lines 126-128; writing false
unconditionally is equivalent since a clear flag stays clear). -/
def pollStep (shared : BurstState) (ts : TaskLocalState) (currentTimeUs nowMs : Nat) :
    BurstState × TaskLocalState × Option PulseBurstResult :=
  let localBurstActive := shared.burstActive
  let localLastEdgeTime := shared.lastEdgeTimeUs
  let localBurstStartTime := shared.burstStartTimeUs
  let localEdgeCount := shared.edgeCount
  let localFirstPulseTime := shared.firstPulseTimeUs
  let localNotifyTask := shared.notifyTask
  let shared1 := { shared with notifyTask := false }
  if localBurstActive = true ∧ PULSE_BURST_TIMEOUT_US < sub32 currentTimeUs localLastEdgeTime then
    let shared2 := { shared1 with burstActive := false, lastBurstEndTimeUs := currentTimeUs }
    let result := computeBurstResult currentTimeUs localBurstStartTime localEdgeCount
      localFirstPulseTime ts.previousBurstEnd nowMs
    let window := processRecord ts.window result nowMs
    (shared2,
     { result := result
       previousBurstEnd := currentTimeUs
       wasActive := false
       window := window },
     some result)
  else if localNotifyTask = true ∧ ts.wasActive = false then
    let result := { ts.result with burstActive := true, success := true }
    (shared1, { ts with result := result, wasActive := true }, some result)
  else
    (shared1, ts, none)

/-- The static module-level state of pulse_tasks.cpp (lines 10-25): the
configured pin, the results queue handle (none when NULL; a live queue holds
an overwrite slot that is none until the first publish), whether the task
handle is non-NULL, whether the edge interrupt is attached, and the shared
tracking variables. -/
structure ModuleState where
  pulsePin : Nat
  queue : Option (Option PulseBurstResult)
  taskRunning : Bool
  attached : Bool
  shared : BurstState
deriving Repr, DecidableEq

/-- Static initial values (lines 11-13, 19-25): pin PULSE_MONITOR_PIN = 6,
queue handle NULL, task handle NULL, no interrupt attached, tracking
variables zero. -/
def startupModuleState : ModuleState :=
  { pulsePin := 6
    queue := none
    taskRunning := false
    attached := false
    shared := initBurstState }

/-- initPulseBurstModule (lines 334-372).  queueAllocOk models whether
xQueueCreate succeeds (line 344); pinSupportsInterrupt models whether
digitalPinToInterrupt(pulsePin) is non-negative (line 351).  On a bad pin
the fresh queue is deleted again (lines 353-354); only on full success are
the tracking variables reset (lines 358-365) and the interrupt attached
(line 368).  Note that a failed call can leave previously created state
(such as a running task) untouched while destroying the queue handle. -/
def initPulseBurstModule (s : ModuleState) (monitorPin : Nat)
    (queueAllocOk pinSupportsInterrupt : Bool) : Bool × ModuleState :=
  let s := { s with pulsePin := monitorPin }
  if queueAllocOk = false then
    (false, { s with queue := none })
  else
    let s := { s with queue := some none }
    if pinSupportsInterrupt = false then
      (false, { s with queue := none })
    else
      (true, { s with shared := initBurstState, attached := true })

/-- createPulseBurstTask (lines 374-403).  xTaskCreateOk models whether
xTaskCreate returns pdPASS (lines 387-394; on failure the handle stays
NULL). -/
def createPulseBurstTask (s : ModuleState) (xTaskCreateOk : Bool) : Bool × ModuleState :=
  if s.queue = none then
    (false, s)
  else if s.taskRunning = true then
    (true, s)
  else if xTaskCreateOk = true then
    (true, { s with taskRunning := true })
  else
    (false, s)

/-- receivePulseBurstResults (lines 405-423).  ptrValid models the result
pointer being non-NULL.  Returns the C return value, the value written
through the pointer by xQueuePeek (peek does not remove the item), and the
(unchanged) module state.  An empty queue is the timeout outcome: xQueuePeek
fails and the function returns false. -/
def receivePulseBurstResults (s : ModuleState) (ptrValid : Bool) :
    Bool × Option PulseBurstResult × ModuleState :=
  if ptrValid = false ∨ s.queue = none then
    (false, none, s)
  else
    match s.queue with
    | some (some r) => (true, some r, s)
    | some none => (false, none, s)
    | none => (false, none, s)

/-- stopPulseBurstTask (lines 425-446).  When no task is running it returns
true immediately without touching anything; otherwise it detaches the
interrupt, deletes the task, and deletes the queue (a NULL queue stays
NULL, so writing none unconditionally is equivalent). -/
def stopPulseBurstTask (s : ModuleState) : Bool × ModuleState :=
  if s.taskRunning = false then
    (true, s)
  else
    (true, { s with attached := false, taskRunning := false, queue := none })

/-- Public API calls available after stop without re-initialising the
module (initPulseBurstModule is excluded: re-initialisation recreates the
queue and restarts the lifecycle).  The polling task itself is not an
event here: vTaskDelete in stopPulseBurstTask removes it, and
createPulseBurstTask is the only way to start a new one. -/
inductive ApiEvent where
  | createTask (xTaskCreateOk : Bool)
  | stopTask
  | receive (ptrValid : Bool)
deriving Repr, DecidableEq

/-- State reached after one API call (return values dropped). -/
def applyEvent (s : ModuleState) : ApiEvent → ModuleState
  | ApiEvent.createTask ok => (createPulseBurstTask s ok).2
  | ApiEvent.stopTask => (stopPulseBurstTask s).2
  | ApiEvent.receive p => (receivePulseBurstResults s p).2.2

/-- State reached after a sequence of API calls. -/
def runEvents (s : ModuleState) (evs : List ApiEvent) : ModuleState :=
  evs.foldl applyEvent s

/-! Helper lemmas about the wraparound subtraction and the ISR. -/

theorem sub32_zero_right (a : Nat) (h : a < U32) : sub32 a 0 = a := by
  simp only [sub32, U32] at *
  omega

theorem sub32_eq_sub (a b : Nat) (hb : b ≤ a) (ha : a < U32) : sub32 a b = a - b := by
  simp only [sub32, U32] at *
  omega

theorem startsBurst_of_active (s : BurstState) (t : Nat) (h : s.burstActive = true) :
    startsBurst s t = false := by
  simp [startsBurst, h]

theorem pulseBurstISR_of_active (s : BurstState) (t : Nat) (h : s.burstActive = true) :
    (pulseBurstISR s t).burstActive = true ∧
    (pulseBurstISR s t).edgeCount = (s.edgeCount + 1) % U16 := by
  simp [pulseBurstISR, startsBurst_of_active s t h, h]
  split <;> simp

theorem feedEdges_cons (s : BurstState) (t : Nat) (ts : List Nat) :
    feedEdges s (t :: ts) = feedEdges (pulseBurstISR s t) ts := rfl

theorem burstStarts_cons (s : BurstState) (t : Nat) (ts : List Nat) :
    burstStarts s (t :: ts) =
      (if startsBurst s t = true then 1 else 0) + burstStarts (pulseBurstISR s t) ts := rfl

/-- Once a burst is active, feeding any further edges keeps it active, adds
each edge to edgeCount (no uint16_t wrap as long as the total stays below
U16), and never takes the start-a-new-burst branch again. -/
theorem feedEdges_of_active (l : List Nat) : ∀ s : BurstState, s.burstActive = true →
    s.edgeCount + l.length < U16 →
    (feedEdges s l).burstActive = true ∧
    (feedEdges s l).edgeCount = s.edgeCount + l.length ∧
    burstStarts s l = 0 := by
  induction l with
  | nil =>
      intro s h _
      simpa [feedEdges, burstStarts] using h
  | cons t ts ih =>
      intro s h hlen
      have hlen1 : s.edgeCount + 1 < U16 := by
        simp only [List.length_cons] at hlen
        omega
      obtain ⟨hact, hcnt⟩ := pulseBurstISR_of_active s t h
      rw [Nat.mod_eq_of_lt hlen1] at hcnt
      have hlen2 : (pulseBurstISR s t).edgeCount + ts.length < U16 := by
        rw [hcnt]
        simp only [List.length_cons] at hlen
        omega
      obtain ⟨h1, h2, h3⟩ := ih (pulseBurstISR s t) hact hlen2
      refine ⟨h1, ?_, ?_⟩
      · show (feedEdges (pulseBurstISR s t) ts).edgeCount = s.edgeCount + (ts.length + 1)
        rw [h2, hcnt]
        omega
      · show (if startsBurst s t = true then 1 else 0) + burstStarts (pulseBurstISR s t) ts = 0
        rw [startsBurst_of_active s t h, h3]
        simp

/-- Claim C1 (amended): for every strictly increasing sequence of uint32
edge timestamps with consecutive gaps strictly below PULSE_BURST_TIMEOUT_US,
whose FIRST timestamp moreover exceeds PULSE_BURST_TIMEOUT_US (so that the
very first timeout comparison against lastEdgeTimeUs = 0 passes) and whose
length is below 2^16 (so that the uint16_t edgeCount does not wrap), feeding
the timestamps one by one to pulseBurstISR from the state set by
initPulseBurstModule yields exactly one burst: the start-a-new-burst branch
is taken exactly once, the burst stays active, and edgeCount equals the
length of the sequence. -/
theorem c1_single_burst (t0 : Nat) (rest : List Nat)
    (hgaps : gapsOk (t0 :: rest) = true)
    (hbound : ∀ t ∈ t0 :: rest, t < U32)
    (hfirst : PULSE_BURST_TIMEOUT_US < t0)
    (hlen : (t0 :: rest).length < U16) :
    (feedEdges initBurstState (t0 :: rest)).burstActive = true ∧
    (feedEdges initBurstState (t0 :: rest)).edgeCount = (t0 :: rest).length ∧
    burstStarts initBurstState (t0 :: rest) = 1 := by
  have ht0 : t0 < U32 := hbound t0 (by simp)
  have hs : startsBurst initBurstState t0 = true := by
    simp only [startsBurst, initBurstState, Bool.not_false, Bool.true_and,
      decide_eq_true_eq]
    rw [sub32_zero_right t0 ht0]
    exact hfirst
  have hstep1 : (pulseBurstISR initBurstState t0).burstActive = true := by
    unfold pulseBurstISR
    rw [hs]
    rfl
  have hstep2 : (pulseBurstISR initBurstState t0).edgeCount = 1 := by
    unfold pulseBurstISR
    rw [hs]
    rfl
  have hlen2 : (pulseBurstISR initBurstState t0).edgeCount + rest.length < U16 := by
    rw [hstep2]
    simp only [List.length_cons] at hlen
    omega
  obtain ⟨h1, h2, h3⟩ := feedEdges_of_active rest (pulseBurstISR initBurstState t0) hstep1 hlen2
  rw [feedEdges_cons, burstStarts_cons, hs, List.length_cons]
  refine ⟨h1, ?_, ?_⟩
  · rw [h2, hstep2]
    omega
  · rw [h3]
    rfl

/-- Witness for c1_single_burst at the concrete sequence 2500, 2600, 2700. -/
theorem c1_single_burst_witness :
    (feedEdges initBurstState [2500, 2600, 2700]).burstActive = true ∧
    (feedEdges initBurstState [2500, 2600, 2700]).edgeCount = [2500, 2600, 2700].length ∧
    burstStarts initBurstState [2500, 2600, 2700] = 1 :=
  c1_single_burst 2500 [2600, 2700] (by decide) (by decide) (by decide) (by decide)

/-- Claim C1 counterexample: the sequence 100, 200 is strictly increasing,
all its gaps are below PULSE_BURST_TIMEOUT_US, yet feeding it from the
initial state yields no burst at all (edgeCount 0, never active), because
the first timestamp does not exceed the timeout measured from
lastEdgeTimeUs = 0; the claim demands edgeCount = 2 and one burst. -/
theorem c1_cex :
    gapsOk [100, 200] = true ∧
    (feedEdges initBurstState [100, 200]).edgeCount = 0 ∧
    (feedEdges initBurstState [100, 200]).burstActive = false ∧
    burstStarts initBurstState [100, 200] = 0 := by decide

/-- Claim C2 (amended): the very first edge delivered to pulseBurstISR
after initialisation opens a burst (burstActive true, burstStartTimeUs and
lastEdgeTimeUs equal to nowUs, edgeCount 1, notifyTask set) exactly when its
timestamp nowUs exceeds PULSE_BURST_TIMEOUT_US; at nowUs at or below the
timeout the check nowUs - 0 > 2000 fails and the edge only updates
lastEdgeTimeUs, opening no burst. -/
theorem c2_first_edge (now : Nat) (h32 : now < U32) :
    (PULSE_BURST_TIMEOUT_US < now →
      pulseBurstISR initBurstState now =
        { lastEdgeTimeUs := now, firstPulseTimeUs := 0, burstStartTimeUs := now,
          lastBurstEndTimeUs := 0, edgeCount := 1, burstActive := true, notifyTask := true }) ∧
    (now ≤ PULSE_BURST_TIMEOUT_US →
      pulseBurstISR initBurstState now = { initBurstState with lastEdgeTimeUs := now }) := by
  constructor
  · intro h
    have hs : startsBurst initBurstState now = true := by
      simp only [startsBurst, initBurstState, Bool.not_false, Bool.true_and,
        decide_eq_true_eq]
      rw [sub32_zero_right now h32]
      exact h
    unfold pulseBurstISR
    rw [hs]
    rfl
  · intro h
    have hs : startsBurst initBurstState now = false := by
      simp only [startsBurst, initBurstState, Bool.not_false, Bool.true_and,
        decide_eq_false_iff_not]
      rw [sub32_zero_right now h32]
      omega
    unfold pulseBurstISR
    rw [hs]
    rfl

/-- Witness for c2_first_edge at nowUs = 5000. -/
theorem c2_first_edge_witness :
    pulseBurstISR initBurstState 5000 =
      { lastEdgeTimeUs := 5000, firstPulseTimeUs := 0, burstStartTimeUs := 5000,
        lastBurstEndTimeUs := 0, edgeCount := 1, burstActive := true, notifyTask := true } :=
  (c2_first_edge 5000 (by decide)).1 (by decide)

/-- Claim C2 counterexample: the first edge ever, delivered at
nowUs = 2000 = PULSE_BURST_TIMEOUT_US, does NOT open a burst: the check
2000 - 0 > 2000 fails, so only lastEdgeTimeUs changes, refuting the claim
that the first edge always opens a burst at any timestamp. -/
theorem c2_cex :
    (pulseBurstISR initBurstState 2000).burstActive = false ∧
    (pulseBurstISR initBurstState 2000).edgeCount = 0 ∧
    pulseBurstISR initBurstState 2000 = { initBurstState with lastEdgeTimeUs := 2000 } := by
  decide

/-- Claim C3 counterexample: feeding the spec scenario 0, 100, 200, 300 from
the initial state opens no burst at all (the first edge at t = 0 fails the
check 0 - 0 > 2000), so there is no first burst with edgeCount = 4; after
the full sequence 0, 100, 200, 300, 2500 the only burst ever opened is the
one started by the edge at 2500, with edgeCount = 1. -/
theorem c3_cex :
    (feedEdges initBurstState [0, 100, 200, 300]).burstActive = false ∧
    (feedEdges initBurstState [0, 100, 200, 300]).edgeCount = 0 ∧
    burstStarts initBurstState [0, 100, 200, 300] = 0 ∧
    (feedEdges initBurstState [0, 100, 200, 300, 2500]).edgeCount = 1 ∧
    (feedEdges initBurstState [0, 100, 200, 300, 2500]).burstStartTimeUs = 2500 := by
  decide

/-- Claim C3 (amended): the scenario holds once shifted past the timeout
threshold and once the aggregator poll that closes the burst is made
explicit.  Edges at 10000, 10100, 10200, 10300 form one burst with
edgeCount = 4 and firstPulseTimeUs = 100 (= 10200 - 10100, recorded at the
third edge); a task poll at 12400 (more than 2000 us after the last edge)
finalises it with pulseCount = edgeCount / 2 = 2 and
firstPulsePeriodUs = 100 and clears burstActive; the next edge at 12500
then opens a second burst. -/
theorem c3_scenario :
    (feedEdges initBurstState [10000, 10100, 10200, 10300]).edgeCount = 4 ∧
    (feedEdges initBurstState [10000, 10100, 10200, 10300]).firstPulseTimeUs = 100 ∧
    (feedEdges initBurstState [10000, 10100, 10200, 10300]).burstActive = true ∧
    ((pollStep (feedEdges initBurstState [10000, 10100, 10200, 10300])
        initTaskLocalState 12400 12).2.2.map (fun r => r.pulseCount)) = some 2 ∧
    ((pollStep (feedEdges initBurstState [10000, 10100, 10200, 10300])
        initTaskLocalState 12400 12).2.2.map (fun r => r.firstPulsePeriodUs)) = some 100 ∧
    ((pollStep (feedEdges initBurstState [10000, 10100, 10200, 10300])
        initTaskLocalState 12400 12).1).burstActive = false ∧
    (pulseBurstISR (pollStep (feedEdges initBurstState [10000, 10100, 10200, 10300])
        initTaskLocalState 12400 12).1 12500).burstActive = true ∧
    (pulseBurstISR (pollStep (feedEdges initBurstState [10000, 10100, 10200, 10300])
        initTaskLocalState 12400 12).1 12500).edgeCount = 1 ∧
    (pulseBurstISR (pollStep (feedEdges initBurstState [10000, 10100, 10200, 10300])
        initTaskLocalState 12400 12).1 12500).burstStartTimeUs = 12500 := by
  decide

/-- Claim C6: every finalised burst record satisfies
pulseCount = edgeCount / 2 under integer division, for every captured
edgeCount (odd values and values below 4 included) and all other inputs of
the finalisation. -/
theorem c6_pulse_count (currentTimeUs localBurstStartTime localEdgeCount
    localFirstPulseTime previousBurstEnd nowMs : Nat) :
    (computeBurstResult currentTimeUs localBurstStartTime localEdgeCount
      localFirstPulseTime previousBurstEnd nowMs).pulseCount = localEdgeCount / 2 := rfl

/-- Claim C8: an edge delivered while no burst is active and within
PULSE_BURST_TIMEOUT_US of the previous edge (unsigned comparison) updates
only lastEdgeTimeUs; burstActive, burstStartTimeUs, edgeCount,
firstPulseTimeUs and notifyTask are untouched, so the edge is counted in no
burst. -/
theorem c8_idle_edge_frame (s : BurstState) (now : Nat)
    (h1 : s.burstActive = false)
    (h2 : sub32 now s.lastEdgeTimeUs ≤ PULSE_BURST_TIMEOUT_US) :
    pulseBurstISR s now = { s with lastEdgeTimeUs := now } := by
  have hs : startsBurst s now = false := by
    simp only [startsBurst, h1, Bool.not_false, Bool.true_and, decide_eq_false_iff_not]
    omega
  simp [pulseBurstISR, hs, h1]

/-- Witness for c8_idle_edge_frame: an edge at 1500 us into an idle initial
state (gap 1500 <= 2000) only moves lastEdgeTimeUs. -/
theorem c8_idle_edge_frame_witness :
    pulseBurstISR initBurstState 1500 = { initBurstState with lastEdgeTimeUs := 1500 } :=
  c8_idle_edge_frame initBurstState 1500 (by decide) (by decide)

/-- The anomalous branch of the aggregator (pulseBurstTask lines 171-191):
a record with pulseCount above MAX_PULSE_COUNT fully invalidates the
window. -/
theorem processRecord_invalid (w : WindowState) (r : PulseBurstResult) (nowMs : Nat)
    (hpc : MAX_PULSE_COUNT < r.pulseCount) :
    (processRecord w r nowMs).validBursts = 0 ∧
    (processRecord w r nowMs).avgIndex = 0 ∧
    (processRecord w r nowMs).burstCounts = List.replicate avgWindow 0 ∧
    (processRecord w r nowMs).frequencies = List.replicate avgWindow 0 ∧
    (processRecord w r nowMs).firstPulsePeriods = List.replicate avgWindow 0 ∧
    (processRecord w r nowMs).burstDurations = List.replicate avgWindow 0 ∧
    (processRecord w r nowMs).offPeriods = List.replicate avgWindow 0 := by
  simp [processRecord, hpc]

/-- The valid branch of the aggregator (pulseBurstTask lines 192-222): the
metrics are written at avgIndex, avgIndex advances modulo the window size,
validBursts increments unless already at the window size. -/
theorem processRecord_valid (w : WindowState) (r : PulseBurstResult) (nowMs : Nat)
    (hpc : r.pulseCount ≤ MAX_PULSE_COUNT) :
    (processRecord w r nowMs).burstCounts = w.burstCounts.set w.avgIndex r.pulseCount ∧
    (processRecord w r nowMs).frequencies = w.frequencies.set w.avgIndex r.frequencyKHz ∧
    (processRecord w r nowMs).firstPulsePeriods =
      w.firstPulsePeriods.set w.avgIndex r.firstPulsePeriodUs ∧
    (processRecord w r nowMs).burstDurations =
      w.burstDurations.set w.avgIndex r.burstDurationUs ∧
    (processRecord w r nowMs).offPeriods = w.offPeriods.set w.avgIndex r.offPeriodUs ∧
    (processRecord w r nowMs).avgIndex = (w.avgIndex + 1) % avgWindow ∧
    (processRecord w r nowMs).validBursts =
      (if w.validBursts < avgWindow then w.validBursts + 1 else w.validBursts) := by
  have hn : ¬ MAX_PULSE_COUNT < r.pulseCount := by omega
  simp only [processRecord, if_neg hn]
  split <;> simp

/-- Claim C4: for every finalised burst record processed by the aggregator
(with validBursts within its invariant bound of avgWindow = 10), the rolling
window is fully invalidated (validBursts 0, avgIndex 0, all five slot arrays
zeroed) if and only if the record has pulseCount > MAX_PULSE_COUNT = 40;
otherwise the metrics are written at the current avgIndex, avgIndex advances
modulo 10, and validBursts increments saturating at 10. -/
theorem c4_outlier_window (w : WindowState) (r : PulseBurstResult) (nowMs : Nat)
    (hv : w.validBursts ≤ avgWindow) :
    (((processRecord w r nowMs).validBursts = 0 ∧
      (processRecord w r nowMs).avgIndex = 0 ∧
      (processRecord w r nowMs).burstCounts = List.replicate avgWindow 0 ∧
      (processRecord w r nowMs).frequencies = List.replicate avgWindow 0 ∧
      (processRecord w r nowMs).firstPulsePeriods = List.replicate avgWindow 0 ∧
      (processRecord w r nowMs).burstDurations = List.replicate avgWindow 0 ∧
      (processRecord w r nowMs).offPeriods = List.replicate avgWindow 0) ↔
      MAX_PULSE_COUNT < r.pulseCount) ∧
    (r.pulseCount ≤ MAX_PULSE_COUNT →
      (processRecord w r nowMs).burstCounts = w.burstCounts.set w.avgIndex r.pulseCount ∧
      (processRecord w r nowMs).frequencies = w.frequencies.set w.avgIndex r.frequencyKHz ∧
      (processRecord w r nowMs).firstPulsePeriods =
        w.firstPulsePeriods.set w.avgIndex r.firstPulsePeriodUs ∧
      (processRecord w r nowMs).burstDurations =
        w.burstDurations.set w.avgIndex r.burstDurationUs ∧
      (processRecord w r nowMs).offPeriods = w.offPeriods.set w.avgIndex r.offPeriodUs ∧
      (processRecord w r nowMs).avgIndex = (w.avgIndex + 1) % avgWindow ∧
      (processRecord w r nowMs).validBursts = min (w.validBursts + 1) avgWindow) := by
  have haw : avgWindow = 10 := rfl
  by_cases hpc : MAX_PULSE_COUNT < r.pulseCount
  · obtain ⟨a1, a2, a3, a4, a5, a6, a7⟩ := processRecord_invalid w r nowMs hpc
    constructor
    · exact ⟨fun _ => hpc, fun _ => ⟨a1, a2, a3, a4, a5, a6, a7⟩⟩
    · intro hle
      exact absurd hpc (by omega)
  · have hle : r.pulseCount ≤ MAX_PULSE_COUNT := by omega
    obtain ⟨b1, b2, b3, b4, b5, b6, b7⟩ := processRecord_valid w r nowMs hle
    constructor
    · constructor
      · rintro ⟨h1, -⟩
        rw [b7] at h1
        split at h1 <;> omega
      · intro hc
        exact absurd hc hpc
    · intro _
      refine ⟨b1, b2, b3, b4, b5, b6, ?_⟩
      rw [b7]
      split <;> omega

/-- Witness for c4_outlier_window: processing a valid record with
pulseCount = 3 on the freshly initialised window advances avgIndex to 1 and
validBursts to 1. -/
theorem c4_outlier_window_witness :
    (processRecord initWindowState
      { burstDurationUs := 2400, offPeriodUs := 0, pulseCount := 3, frequencyKHz := 0,
        firstPulsePeriodUs := 100, timestamp := 12, burstActive := false, success := true }
      12).validBursts = min (initWindowState.validBursts + 1) avgWindow ∧
    (processRecord initWindowState
      { burstDurationUs := 2400, offPeriodUs := 0, pulseCount := 3, frequencyKHz := 0,
        firstPulsePeriodUs := 100, timestamp := 12, burstActive := false, success := true }
      12).avgIndex = (initWindowState.avgIndex + 1) % avgWindow :=
  let h := (c4_outlier_window initWindowState
    { burstDurationUs := 2400, offPeriodUs := 0, pulseCount := 3, frequencyKHz := 0,
      firstPulsePeriodUs := 100, timestamp := 12, burstActive := false, success := true }
    12 (by decide)).2 (by decide)
  ⟨h.2.2.2.2.2.2, h.2.2.2.2.2.1⟩

/-- Claim C5 (amended): once the baseline was captured at millisecond time
t0, a window-invalidation event (a record with pulseCount > 40) at
millisecond time t clears the baseline if and only if t - t0 is STRICTLY
greater than FIRST_READING_MIN_DURATION_MS = 3000; in particular an
invalidation at t - t0 < 3000 never clears it, and neither does one at
exactly t - t0 = 3000 (the code comparison at line 186 is strict). -/
theorem c5_baseline_hold (w : WindowState) (r : PulseBurstResult) (nowMs : Nat)
    (hb : w.haveFirstReading = true)
    (hpc : MAX_PULSE_COUNT < r.pulseCount)
    (hle : w.firstReadingTimestamp ≤ nowMs)
    (h32 : nowMs < U32) :
    ((processRecord w r nowMs).haveFirstReading = false ↔
      FIRST_READING_MIN_DURATION_MS < nowMs - w.firstReadingTimestamp) := by
  simp only [processRecord, if_pos hpc]
  rw [sub32_eq_sub nowMs w.firstReadingTimestamp hle h32]
  by_cases hgt : FIRST_READING_MIN_DURATION_MS < nowMs - w.firstReadingTimestamp <;>
    simp [hb, hgt]

/-- Claim C5 counterexample: with the baseline captured at t0 = 0, an
invalidation event (pulseCount = 41 > 40) at t = 3000, i.e. at
t - t0 = 3000 exactly, does NOT clear the baseline, refuting the part of
the claim that says an invalidation at t - t0 at or past 3000 ms clears
it. -/
theorem c5_cex :
    (processRecord { initWindowState with haveFirstReading := true }
      { initResult with pulseCount := 41 } 3000).haveFirstReading = true := by decide

/-- Witness for c5_baseline_hold: baseline captured at t0 = 0, invalidation
at t = 3001; the baseline is cleared since 3001 - 0 > 3000. -/
theorem c5_baseline_hold_witness :
    ((processRecord { initWindowState with haveFirstReading := true }
        { initResult with pulseCount := 41 } 3001).haveFirstReading = false ↔
      FIRST_READING_MIN_DURATION_MS < 3001 - 0) :=
  c5_baseline_hold { initWindowState with haveFirstReading := true }
    { initResult with pulseCount := 41 } 3001 rfl (by decide) (by decide) (by decide)

/-- A module state with no queue and no running task is a fixed point of
every post-stop API call: create fails on the missing queue, stop returns
early, receive never mutates. -/
theorem applyEvent_stopped (s : ModuleState) (h1 : s.queue = none)
    (h2 : s.taskRunning = false) (e : ApiEvent) : applyEvent s e = s := by
  cases e <;>
    simp [applyEvent, createPulseBurstTask, stopPulseBurstTask, receivePulseBurstResults, h1, h2]

theorem runEvents_stopped (evs : List ApiEvent) : ∀ s : ModuleState, s.queue = none →
    s.taskRunning = false → runEvents s evs = s := by
  induction evs with
  | nil => intro s _ _; rfl
  | cons e es ih =>
      intro s h1 h2
      show runEvents (applyEvent s e) es = s
      rw [applyEvent_stopped s h1 h2 e]
      exact ih s h1 h2

theorem receive_queue_none (s : ModuleState) (p : Bool) (h : s.queue = none) :
    receivePulseBurstResults s p = (false, none, s) := by
  simp [receivePulseBurstResults, h]

/-- Claim C7 (amended): stopping the module while the task runs returns
true and deletes the results queue; thereafter, under any sequence of
further create/stop/receive calls (no re-initialisation), the module state
is unchanged — in particular nothing is ever written to the published slot
again — and every receivePulseBurstResults call returns false writing
nothing through the pointer.  That false, however, is the SAME return value
the function produces on the no-data-yet timeout outcome (an initialised
module with an empty queue), so the stopped case is not distinguishable by
the caller from a timeout: there is no AlreadyStopped error in the code. -/
theorem c7_after_stop (s : ModuleState) (evs : List ApiEvent) (p : Bool)
    (h : s.taskRunning = true) :
    (stopPulseBurstTask s).1 = true ∧
    (stopPulseBurstTask s).2.queue = none ∧
    runEvents (stopPulseBurstTask s).2 evs = (stopPulseBurstTask s).2 ∧
    (receivePulseBurstResults (runEvents (stopPulseBurstTask s).2 evs) p).1 = false ∧
    (receivePulseBurstResults (runEvents (stopPulseBurstTask s).2 evs) p).2.1 = none ∧
    (receivePulseBurstResults (runEvents (stopPulseBurstTask s).2 evs) p).2.2 =
      runEvents (stopPulseBurstTask s).2 evs ∧
    (receivePulseBurstResults (runEvents (stopPulseBurstTask s).2 evs) p).1 =
      (receivePulseBurstResults { (stopPulseBurstTask s).2 with queue := some none } p).1 := by
  have hstop : stopPulseBurstTask s =
      (true, { s with attached := false, taskRunning := false, queue := none }) := by
    simp [stopPulseBurstTask, h]
  have hq : (stopPulseBurstTask s).2.queue = none := by rw [hstop]
  have ht : (stopPulseBurstTask s).2.taskRunning = false := by rw [hstop]
  have hrun : runEvents (stopPulseBurstTask s).2 evs = (stopPulseBurstTask s).2 :=
    runEvents_stopped evs _ hq ht
  have hrecv := receive_queue_none (stopPulseBurstTask s).2 p hq
  refine ⟨by rw [hstop], hq, hrun, ?_, ?_, ?_, ?_⟩
  · rw [hrun, hrecv]
  · rw [hrun, hrecv]
  · rw [hrun, hrecv]
  · rw [hrun, hrecv]
    cases p <;> simp [receivePulseBurstResults]

/-- Witness for c7_after_stop: a concrete running module, stopped, then
subjected to a receive, a create and a stop. -/
theorem c7_after_stop_witness :
    (stopPulseBurstTask
      { pulsePin := 6, queue := some none, taskRunning := true, attached := true,
        shared := initBurstState }).1 = true ∧
    (stopPulseBurstTask
      { pulsePin := 6, queue := some none, taskRunning := true, attached := true,
        shared := initBurstState }).2.queue = none ∧
    runEvents (stopPulseBurstTask
      { pulsePin := 6, queue := some none, taskRunning := true, attached := true,
        shared := initBurstState }).2
      [ApiEvent.receive true, ApiEvent.createTask true, ApiEvent.stopTask] =
      (stopPulseBurstTask
        { pulsePin := 6, queue := some none, taskRunning := true, attached := true,
          shared := initBurstState }).2 ∧
    (receivePulseBurstResults (runEvents (stopPulseBurstTask
        { pulsePin := 6, queue := some none, taskRunning := true, attached := true,
          shared := initBurstState }).2
      [ApiEvent.receive true, ApiEvent.createTask true, ApiEvent.stopTask]) true).1 = false ∧
    (receivePulseBurstResults (runEvents (stopPulseBurstTask
        { pulsePin := 6, queue := some none, taskRunning := true, attached := true,
          shared := initBurstState }).2
      [ApiEvent.receive true, ApiEvent.createTask true, ApiEvent.stopTask]) true).2.1 = none ∧
    (receivePulseBurstResults (runEvents (stopPulseBurstTask
        { pulsePin := 6, queue := some none, taskRunning := true, attached := true,
          shared := initBurstState }).2
      [ApiEvent.receive true, ApiEvent.createTask true, ApiEvent.stopTask]) true).2.2 =
      runEvents (stopPulseBurstTask
        { pulsePin := 6, queue := some none, taskRunning := true, attached := true,
          shared := initBurstState }).2
        [ApiEvent.receive true, ApiEvent.createTask true, ApiEvent.stopTask] ∧
    (receivePulseBurstResults (runEvents (stopPulseBurstTask
        { pulsePin := 6, queue := some none, taskRunning := true, attached := true,
          shared := initBurstState }).2
      [ApiEvent.receive true, ApiEvent.createTask true, ApiEvent.stopTask]) true).1 =
      (receivePulseBurstResults { (stopPulseBurstTask
        { pulsePin := 6, queue := some none, taskRunning := true, attached := true,
          shared := initBurstState }).2 with queue := some none } true).1 :=
  c7_after_stop
    { pulsePin := 6, queue := some none, taskRunning := true, attached := true,
      shared := initBurstState }
    [ApiEvent.receive true, ApiEvent.createTask true, ApiEvent.stopTask] true rfl

/-- Claim C7 counterexample: after init, create and stop, a receive call
returns false — exactly the same false an initialised module with no data
yet returns on timeout.  The two failure outcomes are equal, so the
post-stop failure is NOT distinguishable by the caller from the no-data
timeout: the claimed distinct AlreadyStopped error does not exist, both
paths of receivePulseBurstResults (line 406 and line 416) return plain
false. -/
theorem c7_cex :
    (receivePulseBurstResults
      (stopPulseBurstTask
        (createPulseBurstTask (initPulseBurstModule startupModuleState 6 true true).2 true).2).2
      true).1 = false ∧
    (receivePulseBurstResults (initPulseBurstModule startupModuleState 6 true true).2 true).1
      = false ∧
    (receivePulseBurstResults
      (stopPulseBurstTask
        (createPulseBurstTask (initPulseBurstModule startupModuleState 6 true true).2 true).2).2
      true).1 =
    (receivePulseBurstResults (initPulseBurstModule startupModuleState 6 true true).2 true).1 := by
  decide

/-- Claim C9 (amended): createPulseBurstTask called while the task is
already running AND the results queue exists (the normal running state)
returns true without modifying any module state; stopPulseBurstTask called
while no task is running returns true without modifying any module state.
(The queue-exists proviso is needed: see the counterexample, where a failed
re-initialisation destroys the queue while the task keeps running, and
create then returns false.) -/
theorem c9_idempotent (s1 s2 : ModuleState) (ok : Bool)
    (h1 : s1.taskRunning = true) (h2 : ¬ s1.queue = none)
    (h3 : s2.taskRunning = false) :
    createPulseBurstTask s1 ok = (true, s1) ∧ stopPulseBurstTask s2 = (true, s2) := by
  constructor
  · simp [createPulseBurstTask, h1, h2]
  · simp [stopPulseBurstTask, h3]

/-- Witness for c9_idempotent: a concrete initialised running module for
create, and the startup state for stop. -/
theorem c9_idempotent_witness :
    createPulseBurstTask
      { pulsePin := 6, queue := some none, taskRunning := true, attached := true,
        shared := initBurstState } true =
      (true,
        { pulsePin := 6, queue := some none, taskRunning := true, attached := true,
          shared := initBurstState }) ∧
    stopPulseBurstTask startupModuleState = (true, startupModuleState) :=
  c9_idempotent
    { pulsePin := 6, queue := some none, taskRunning := true, attached := true,
      shared := initBurstState }
    startupModuleState true rfl (by simp) rfl

/-- Claim C9 counterexample: init on pin 6, create the task, then call
initPulseBurstModule again with a pin that does not support interrupts —
the re-init deletes the queue (lines 353-354) but leaves the task handle
set.  In the resulting state the task is still running, yet
createPulseBurstTask returns false (line 375 guard), refuting the claim
that create-while-running always returns true.  (The state is unchanged, so
only the return value deviates.) -/
theorem c9_cex :
    ((initPulseBurstModule
      (createPulseBurstTask (initPulseBurstModule startupModuleState 6 true true).2 true).2
      6 true false).2).taskRunning = true ∧
    (createPulseBurstTask
      (initPulseBurstModule
        (createPulseBurstTask (initPulseBurstModule startupModuleState 6 true true).2 true).2
        6 true false).2 true).1 = false ∧
    (createPulseBurstTask
      (initPulseBurstModule
        (createPulseBurstTask (initPulseBurstModule startupModuleState 6 true true).2 true).2
        6 true false).2 true).2 =
      (initPulseBurstModule
        (createPulseBurstTask (initPulseBurstModule startupModuleState 6 true true).2 true).2
        6 true false).2 := by
  decide

/-- Claim C10: receivePulseBurstResults with a NULL result pointer or an
uninitialised module (NULL queue) returns false, writes nothing through the
pointer, and leaves the module state unchanged. -/
theorem c10_receive_guard (s : ModuleState) (p : Bool) (h : p = false ∨ s.queue = none) :
    receivePulseBurstResults s p = (false, none, s) := by
  rcases h with h | h <;> simp [receivePulseBurstResults, h]

/-- Witness for c10_receive_guard: a valid pointer but an uninitialised
module (startup state, queue NULL). -/
theorem c10_receive_guard_witness :
    receivePulseBurstResults startupModuleState true = (false, none, startupModuleState) :=
  c10_receive_guard startupModuleState true (Or.inr rfl)

end PulseTasks
